import Mathlib

/-!
Verification of the bTCP transport-layer sockets (`src/btcp/server_socket.py` and
`src/btcp/client_socket.py`) against their natural-language specification.

Bytes are modelled as `List Nat` (each entry one byte), machine integers as `Nat`
with explicit bounds where they matter, and Python exceptions as an explicit
error channel that also records the object state at the moment of the raise
(attribute assignments executed before the raise persist).

Name resolution is modelled by Python scoping rules.  Names defined in a class
body are not in scope inside the methods of that class, so the bare calls of
the class attributes `increment_synack`, `pack_and_pad` and `send_SYNACK`
(server lines 129, 138, 140, 153, 154, 159, 256, 263) raise `NameError`, as do
the bare `SYN_RCVD` and `CLOSING` at server lines 128 and 145 (everywhere else
the file writes `BTCPStates....`).  `client_socket.py` imports neither `struct`
nor `queue` (the server file imports both explicitly, so the star import of the
absent constants module is not what supplies them), making `struct.iter_unpack`
at client line 74 a `NameError` on every segment.  `len(self.s_queue)` at
server lines 156 and 218 is a `TypeError`: `queue.Queue` offers `qsize()` and
`empty()` but no `__len__`.  The modules `btcp/btcp_socket.py`,
`btcp/lossy_layer.py` and `btcp/constants.py` are imported by the sources but
are not part of the repository snapshot; the pieces of their behaviour the
sources rely on (the state enumeration, header packing and unpacking, the
lossy-layer lifecycle) are modelled from the spec, each marked in its doc
comment, and module-level names the star import could plausibly supply
(`unpack_segment_header`, `build_segment_header`, `BTCPStates`) are modelled
as resolving.
-/

/-- Modelled from the spec: the connection-state enumeration `BTCPStates`
(defined in `btcp/btcp_socket.py`, which is not under `src/`).  Section 4.2 of
the spec lists the states used by the two roles. -/
inductive BTCPState
| CLOSED
| ACCEPTING
| SYN_SENT
| SYN_RCVD
| ESTABLISHED
| FIN_SENT
| CLOSING
deriving DecidableEq

/-- Python exceptions that the modelled code can raise.  `structError` is the
error raised by `struct.iter_unpack` and `struct.unpack` when the buffer length
does not fit the format; `nameError` is the error raised when an undefined
bare name is evaluated (`increment_synack`, `pack_and_pad`, `send_SYNACK`,
`SYN_RCVD`, `Queue.Emtpy` on the server side, `struct` on the client side);
`typeError` is raised by `len()` on a `queue.Queue`, which has no `__len__`;
`notImplementedError` is the `NotImplementedError` raised by the skeleton
method bodies. -/
inductive PyError
| structError
| nameError
| typeError
| notImplementedError
deriving DecidableEq

/-- The argument list of `build_segment_header` (defined in
`btcp/btcp_socket.py`, not under `src/`): sequence number, acknowledgement
number, the three flags and the advertised window.  Modelled from the spec:
the header carries `seq`, `ack`, SYN/ACK/FIN flags and `window`.  Any segment
the server managed to send would be such a header followed by
`pack_and_pad(b'')`, so sent segments are identified with their headers. -/
structure SegHeader where
  seqnum : Nat
  acknum : Nat
  syn_set : Bool
  ack_set : Bool
  fin_set : Bool
  window : Nat
deriving DecidableEq

/-- The mutable attributes of `BTCPServerSocket` (constructor, lines 40-53 of
`server_socket.py`): the connection state, the cursors `s_syn` and `s_ack`, the
handshake and teardown rendezvous numbers, the bounded delivery queue
(`s_queue`, front of the list is the front of the queue), and the configured
window `_window`.  `lossyLayer` records whether `_lossy_layer` is still set
(not `None`), and `releases` counts how many times the lossy-layer resource has
been destroyed, so that release-exactly-once properties can be stated. -/
structure ServerState where
  state : BTCPState
  sSyn : Nat
  sAck : Nat
  establishingAck : Nat
  closingAck : Nat
  sQueue : List (List Nat)
  window : Nat
  lossyLayer : Bool
  releases : Nat
deriving DecidableEq

/-- The mutable attributes of `BTCPClientSocket` (constructor, lines 31-44 of
`client_socket.py`) that the claims refer to. -/
structure ClientState where
  state : BTCPState
  lossyLayer : Bool
  releases : Nat
deriving DecidableEq

/-- The outcome of one run of the server receive callback: the socket state
when the callback ends (attribute assignments executed before a raise
persist), the segment headers actually handed to `send_segment`, and the
exception escaping the callback, if any (`none` is a normal return). -/
structure HandlerResult where
  state : ServerState
  sent : List SegHeader
  raised : Option PyError
deriving DecidableEq

namespace BTCPServerSocket

/-- Lines 76-81 of `server_socket.py`: pad the payload with zero bytes to
length 1008 and pack it.  The function itself is well defined (it takes no
`self`), but its call sites at lines 140 and 159 are bare names inside
methods, where the class attribute is not in scope, so it is never actually
reached at run time. -/
def pack_and_pad (payload : List Nat) : List Nat :=
  payload ++ List.replicate (1008 - payload.length) 0

/-- Lines 84-87 of `server_socket.py`: increment a sequence number, wrapping
`65535` to `1` so that the result is never `0` (the code uses `0` as the
unset marker).  The function itself is well defined and callable through the
class (it takes no `self`); its call sites at lines 129, 138, 153 and 154 are
bare names inside methods and raise `NameError` instead of invoking it. -/
def increment_synack (syn : Nat) : Nat :=
  if syn < 65535 then syn + 1 else 1

/-- The 16-bit big-endian words of a byte string, as produced by
`struct.iter_unpack(R'!H', segment)` on an even-length buffer (for an
odd-length buffer `iter_unpack` raises `struct.error` instead; that guard
lives in the callers).  A trailing odd byte is never consumed here. -/
def words16 : List Nat → List Nat
| a :: b :: rest => (a * 256 + b) :: words16 rest
| _ => []

/-- Lines 109-112 of `server_socket.py`: fold the carries of the
ones-complement accumulator until it fits in 16 bits:
`while acc > 0xFFFF: carry = acc >> 16; acc &= 0xFFFF; acc += carry`. -/
def foldCarry (acc : Nat) : Nat :=
  if acc > 65535 then foldCarry (acc % 65536 + acc / 65536) else acc
termination_by acc
decreasing_by omega

/-- Modelled from the spec: `unpack_segment_header` (defined in
`btcp/btcp_socket.py`, not under `src/`; as a module-level name it can be
supplied by the star import, so the bare call at line 121 is modelled as
resolving).  Section 3 of the spec gives the header fields `seq`, `ack`,
flags, `window`, `length`, `checksum` packed into the 10-byte header; the
flag-bit layout (SYN = 4, ACK = 2, FIN = 1 within the flags byte) is a
representation choice none of the theorems depend on. -/
def unpack_segment_header (hdr : List Nat) :
    Nat × Nat × Bool × Bool × Bool × Nat × Nat × Nat :=
  let b := fun i => hdr.getD i 0
  (b 0 * 256 + b 1, b 2 * 256 + b 3,
   decide (b 4 / 4 % 2 = 1), decide (b 4 / 2 % 2 = 1), decide (b 4 % 2 = 1),
   b 5, b 6 * 256 + b 7, b 8 * 256 + b 9)

/-- Lines 123-161 of `server_socket.py`: the body of
`lossy_layer_segment_received` after the checksum has been verified and the
header unpacked, with Python name resolution taken literally:

* Lines 124-127 (SYN in `ACCEPTING`/`SYN_RCVD`) use only qualified names and
  complete normally: `s_ack := seqnum`, state `SYN_RCVD`, return.
* Line 128: once `ack_set` is truthy, evaluating the bare name `SYN_RCVD`
  raises `NameError` (no prior mutation), so every ACK-flagged segment that
  did not take the SYN branch dies here; with `ack_set` false the condition
  short-circuits harmlessly.
* Lines 135-144 (FIN in `ESTABLISHED`/`CLOSING`): line 136 assigns
  `_state := CLOSING`, then the bare `increment_synack` at line 138 (when
  `closing_ack == 0`) or the bare `pack_and_pad` at line 140 (otherwise)
  raises `NameError`: `s_syn` is never incremented, `closing_ack` never
  recorded, nothing sent.
* Lines 145-148 are unreachable: `ack_set` is false here (true raised at
  line 128), so the condition short-circuits without evaluating the bare
  `CLOSING`; even hypothetically, `self._lossy_layer.__del__(self._lossy_layer)`
  at line 147 passes an extra positional argument to the no-argument destroy
  of the spec -- a `TypeError` performing no release.
* Lines 151-161 (data phase, no flags, `ESTABLISHED`): on the expected
  sequence number, line 153 evaluates the bare `increment_synack` and raises
  `NameError` before any assignment or enqueue; on any other sequence number,
  line 156 evaluates `len(self.s_queue)` on a `queue.Queue`, which has no
  `__len__`, raising `TypeError` -- in both cases before any send.
* A segment matching no branch falls through and returns normally.

No path reaches `send_segment`, so the sent list is always empty; no path
touches `_lossy_layer` or performs a release. -/
def segment_received_dispatch (s : ServerState) (seqnum _acknum : Nat)
    (syn_set ack_set fin_set : Bool) (_payload : List Nat) : HandlerResult :=
  if syn_set = true ∧ (s.state = .ACCEPTING ∨ s.state = .SYN_RCVD) then
    { state := { s with sAck := seqnum, state := .SYN_RCVD }, sent := [],
      raised := none }
  else if ack_set = true then
    { state := s, sent := [], raised := some .nameError }
  else if fin_set = true ∧ (s.state = .ESTABLISHED ∨ s.state = .CLOSING) then
    { state := { s with state := .CLOSING }, sent := [],
      raised := some .nameError }
  else if ack_set = false ∧ syn_set = false ∧ fin_set = false
      ∧ s.state = .ESTABLISHED then
    if s.sAck + 1 = seqnum then
      { state := s, sent := [], raised := some .nameError }
    else
      { state := s, sent := [], raised := some .typeError }
  else
    { state := s, sent := [], raised := none }

/-- Lines 93-161 of `server_socket.py`: the full `lossy_layer_segment_received`
callback on raw bytes.  `struct.iter_unpack(R'!H', segment)` raises
`struct.error` when the buffer length is not a multiple of two (`struct` is
imported in this file); otherwise the carries of the word sum are folded and
any residue other than `0xFFFF` drops the segment (plain `return`: no state
change, nothing sent).  A valid segment is split at byte 10 into header and
payload, the header unpacked (`struct.unpack` inside `unpack_segment_header`
needs all 10 header bytes) and dispatched. -/
def lossy_layer_segment_received (s : ServerState) (segment : List Nat) :
    HandlerResult :=
  if segment.length % 2 ≠ 0 then
    { state := s, sent := [], raised := some .structError }
  else if foldCarry (words16 segment).sum ≠ 65535 then
    { state := s, sent := [], raised := none }
  else if segment.length < 10 then
    { state := s, sent := [], raised := some .structError }
  else
    let u := unpack_segment_header (segment.take 10)
    segment_received_dispatch s u.1 u.2.1 u.2.2.1 u.2.2.2.1 u.2.2.2.2.1
      (segment.drop 10)

/-- Lines 217-222 of `server_socket.py`: `send_SYNACK` is declared as
`def send_SYNACK():` -- a class attribute with no `self` parameter whose body
nevertheless uses `self` -- and both call sites (lines 256 and 263) invoke it
as a bare name from inside `accept`, where the class attribute is not in
scope.  Any attempt to produce a `SYN+ACK` therefore raises `NameError`
before any header is built or sent (and even a qualified call would die on
the undefined `self`, or later on `len(self.s_queue)`). -/
def send_SYNACK : Except PyError SegHeader :=
  .error .nameError

/-- Lines 336-338 of `server_socket.py`: `close` destroys the lossy layer only
when the reference is still set, and clears the reference unconditionally. -/
def close (s : ServerState) : ServerState :=
  if s.lossyLayer then
    { s with releases := s.releases + 1, lossyLayer := false }
  else
    { s with lossyLayer := false }

/-- Lines 311-314 of `server_socket.py`: the drain loop of `recv`.  While
`data_segments <= 25` (so at most 26 iterations) the code pops the queue with
`self.s_queue.get(False)`; on an empty queue `get(False)` raises `queue.Empty`,
and matching it against the except clause evaluates `Queue.Emtpy` -- an
undefined name (the module is imported as `queue`, and the exception class is
`Empty`), so a `NameError` escapes instead of the intended `break`. -/
def recvDrain : Nat → List (List Nat) → List Nat → Except PyError (List Nat)
| 0, _, acc => .ok acc
| _ + 1, [], _ => .error .nameError
| fuel + 1, p :: rest, acc => recvDrain fuel rest (acc ++ p)

/-- Lines 303-316 of `server_socket.py`: `recv` first spins while
`s_queue.empty() and self._state == BTCPStates.ESTABLISHED`; this function is
the behaviour once that wait has ended (so its arguments satisfy: the queue is
non-empty or the state differs from `ESTABLISHED`).  The state argument does
not influence the drain. -/
def recv (_state : BTCPState) (q : List (List Nat)) : Except PyError (List Nat) :=
  recvDrain 26 q []

/-- Line 304 of `server_socket.py`: the condition under which `recv` keeps
blocking. -/
def recvWaits (state : BTCPState) (q : List (List Nat)) : Bool :=
  q.isEmpty && (state == BTCPState.ESTABLISHED)

/-- The observable variables of a run of `accept` (lines 242-268 of
`server_socket.py`) under total peer silence: the attributes `s_syn`,
`establishing_ack` and `_state`, the final value of the local `timeout`
counter, the number of `SYN+ACK` segments actually sent, and the exception
escaping `accept`, if any. -/
structure AcceptObs where
  sSyn : Nat
  establishingAck : Nat
  state : BTCPState
  timeoutMs : Nat
  synacksSent : Nat
  raised : Option PyError
deriving DecidableEq

/-- Lines 250-255 of `server_socket.py` under total peer silence:
`lossy_layer_segment_received` never runs, so `_state` is never `SYN_RCVD` and
the wait loop can only end through the `timeout > 5000` break (which sets
`_state := CLOSED`); each pass sleeps, then adds 10 to `timeout`, then checks.
Returns the final value of `timeout`. -/
def acceptWaitSilent (timeoutMs : Nat) : Nat :=
  if timeoutMs + 10 > 5000 then timeoutMs + 10 else acceptWaitSilent (timeoutMs + 10)
termination_by 5001 - timeoutMs

/-- The run of `accept` (lines 242-268) when the peer stays silent, `draw`
being the value `random.randint(1, 65535)` returns at line 245.  The first
outer iteration draws `s_syn` (if still 0), records `establishing_ack`, sets
`ACCEPTING`, and spins in the wait loop until the `timeout > 5000` break sets
`_state := CLOSED`.  Line 256 then calls `send_SYNACK()` as a bare name -- the
function is a class attribute, not in scope inside the method -- so a
`NameError` escapes `accept` during the first outer iteration: no `SYN+ACK`
is ever sent, the retry loop of lines 259-266 and the outer `while True` are
never reached again. -/
def acceptSilent (s0 : ServerState) (draw : Nat) : AcceptObs :=
  let sSyn := if s0.sSyn = 0 then draw else s0.sSyn
  { sSyn := sSyn
    establishingAck := sSyn
    state := .CLOSED
    timeoutMs := acceptWaitSilent 0
    synacksSent := 0
    raised := some .nameError }

end BTCPServerSocket

namespace BTCPClientSocket

/-- Lines 59-84 of `client_socket.py`: the client callback body starts by
evaluating `struct.iter_unpack(R'!H', segment)`, but `client_socket.py` never
imports `struct` (`server_socket.py` imports it explicitly, so the star import
of the absent constants module is not what supplies it).  The bare name
`struct` raises `NameError` on every segment, before any length check or
checksum comparison, so the client never implements the silent drop. -/
def lossy_layer_segment_received (_c : ClientState) (_segment : List Nat) :
    Except PyError (ClientState × List SegHeader) :=
  .error .nameError

/-- Lines 159-183 of `client_socket.py`: the body of `send` is
`pass` followed by `raise NotImplementedError(...)`, for every argument. -/
def send (_c : ClientState) (_data : List Nat) : Except PyError Nat :=
  .error .notImplementedError

/-- Lines 222-224 of `client_socket.py`: identical to the server `close`. -/
def close (c : ClientState) : ClientState :=
  if c.lossyLayer then
    { c with releases := c.releases + 1, lossyLayer := false }
  else
    { c with lossyLayer := false }

end BTCPClientSocket

/-- The 16-bit words of a byte string in the reading of claim C4, which speaks
about every byte sequence: the Internet-checksum convention pads an odd-length
input with a trailing zero byte.  This follows the claim text, not the source
(the source rejects odd lengths before summing), and exists to state the claim
on the inputs where the two disagree. -/
def specWords16 : List Nat → List Nat
| [] => []
| [a] => [a * 256]
| a :: b :: rest => (a * 256 + b) :: specWords16 rest

/-- The folded ones-complement sum of claim C4 over an arbitrary byte string,
via the padding convention of `specWords16`. -/
def specFold (segment : List Nat) : Nat :=
  BTCPServerSocket.foldCarry (specWords16 segment).sum

/-- A sample server socket in the `ESTABLISHED` state, used as the concrete
instance for witnesses and failing-input evaluations. -/
def served : ServerState :=
  { state := .ESTABLISHED, sSyn := 3, sAck := 7, establishingAck := 0,
    closingAck := 0, sQueue := [], window := 10, lossyLayer := true,
    releases := 0 }

/-- A sample server socket in the `CLOSING` state with a teardown
acknowledgement number set. -/
def closingServer : ServerState :=
  { state := .CLOSING, sSyn := 5, sAck := 9, establishingAck := 0,
    closingAck := 5, sQueue := [], window := 10, lossyLayer := true,
    releases := 0 }

/-- A sample client socket used as the concrete instance for witnesses. -/
def clientSample : ClientState :=
  { state := .ESTABLISHED, lossyLayer := true, releases := 0 }

/-- The increment helper never returns zero: both branches are positive. -/
lemma increment_synack_pos (x : Nat) : 0 < BTCPServerSocket.increment_synack x := by
  unfold BTCPServerSocket.increment_synack
  split <;> omega

/-- Folding carries leaves an accumulator that already fits 16 bits alone. -/
lemma foldCarry_small (acc : Nat) (h : acc ≤ 65535) :
    BTCPServerSocket.foldCarry acc = acc := by
  unfold BTCPServerSocket.foldCarry
  rw [if_neg (by omega)]

/-- The silent wait loop of `accept` ends with `timeout = 5010`, reached from
any multiple of ten not above 5000. -/
lemma acceptWaitSilent_from (k : Nat) (hk : k ≤ 500) :
    BTCPServerSocket.acceptWaitSilent (5000 - 10 * k) = 5010 := by
  induction k with
  | zero =>
    unfold BTCPServerSocket.acceptWaitSilent
    norm_num
  | succ m ih =>
    unfold BTCPServerSocket.acceptWaitSilent
    rw [if_neg (by omega)]
    have harg : 5000 - 10 * (m + 1) + 10 = 5000 - 10 * m := by omega
    rw [harg]
    exact ih (by omega)

/-- C8: for every sequence number `s` with `s ≤ 65535`, `increment_synack`
returns `s + 1` when `s < 65535` and `1` when `s = 65535`; the result is
positive (never `0`), and so is the result of any positive number of repeated
increments. -/
theorem increment_synack_wraps_never_zero (s : Nat) (_h : s ≤ 65535) :
    (s < 65535 → BTCPServerSocket.increment_synack s = s + 1) ∧
    (s = 65535 → BTCPServerSocket.increment_synack s = 1) ∧
    0 < BTCPServerSocket.increment_synack s ∧
    ∀ n : Nat, 0 < BTCPServerSocket.increment_synack^[n + 1] s := by
  refine ⟨fun hlt => ?_, fun he => ?_, increment_synack_pos s, fun n => ?_⟩
  · unfold BTCPServerSocket.increment_synack
    rw [if_pos hlt]
  · unfold BTCPServerSocket.increment_synack
    rw [if_neg (by omega)]
  · rw [Function.iterate_succ_apply']
    exact increment_synack_pos _

/-- Witness for C8 at the wraparound point `s = 65535`. -/
theorem increment_synack_wraps_never_zero_witness :
    (65535 : Nat) ≤ 65535 ∧ BTCPServerSocket.increment_synack 65535 = 1 :=
  ⟨by omega, (increment_synack_wraps_never_zero 65535 (by omega)).2.1 rfl⟩

/-- C2: under total peer silence `accept` does not return normally reporting
failure: the wait loop ends via the `timeout > 5000` break with `_state` set
to `CLOSED` and the counter at 5010, and then the bare-name call
`send_SYNACK()` at line 256 raises `NameError`, which escapes `accept` during
the first outer iteration with no `SYN+ACK` ever sent. -/
theorem accept_silence_raises_in_closed (s0 : ServerState) (draw : Nat) :
    (BTCPServerSocket.acceptSilent s0 draw).raised = some PyError.nameError ∧
    (BTCPServerSocket.acceptSilent s0 draw).state = BTCPState.CLOSED ∧
    (BTCPServerSocket.acceptSilent s0 draw).synacksSent = 0 ∧
    (BTCPServerSocket.acceptSilent s0 draw).timeoutMs = 5010 := by
  refine ⟨rfl, rfl, rfl, ?_⟩
  show BTCPServerSocket.acceptWaitSilent 0 = 5010
  have h := acceptWaitSilent_from 500 (by omega)
  norm_num at h
  exact h

/-- C9: the client `send` raises `NotImplementedError` for every socket state
and every byte string, instead of buffering data and returning the number of
bytes accepted. -/
theorem client_send_raises (c : ClientState) (data : List Nat) :
    BTCPClientSocket.send c data = .error .notImplementedError := rfl

/-- C3: once the wait loop of `recv` has ended, the drain loop raises instead
of returning: with the connection terminated (state `CLOSED`) and the queue
empty, the first `get(False)` raises and the broken except clause
(`Queue.Emtpy`, an undefined name) turns it into a `NameError` escaping
`recv` -- and even with a payload available the drain reaches the empty queue
and raises before returning the data, instead of returning `b''` or the
payload as the claim requires. -/
theorem recv_raises_instead_of_returning :
    BTCPServerSocket.recv BTCPState.CLOSED [] = .error .nameError ∧
    BTCPServerSocket.recv BTCPState.CLOSED [[104, 105]] = .error .nameError :=
  ⟨rfl, rfl⟩

/-- C1: the claimed data-phase behaviour does not exist.  On the sample
`ESTABLISHED` socket with `s_ack = 7`: the in-order no-flag payload segment
(sequence 8) raises `NameError` at line 153 (bare class-attribute call
`increment_synack`) before any assignment -- no enqueue, no cursor advance,
no echo; an out-of-order segment (sequence 9) raises `TypeError` at line 156
(`len()` of a `queue.Queue`) before any echo; and a segment carrying the ACK
flag raises `NameError` at line 128 (bare `SYN_RCVD`).  In every case the
state is unchanged and nothing is sent, where the claim requires acceptance
with cursor advance and an ACK echo in all cases. -/
theorem data_phase_never_accepts_nor_echoes :
    BTCPServerSocket.segment_received_dispatch served 8 0 false false false [42] =
      { state := served, sent := [], raised := some PyError.nameError } ∧
    BTCPServerSocket.segment_received_dispatch served 9 0 false false false [42] =
      { state := served, sent := [], raised := some PyError.typeError } ∧
    BTCPServerSocket.segment_received_dispatch served 8 0 false true false [42] =
      { state := served, sent := [], raised := some PyError.nameError } :=
  ⟨rfl, rfl, rfl⟩

/-- C5: the claimed FIN idempotence does not exist.  A FIN segment (ACK flag
clear, any SYN flag) in `ESTABLISHED` or `CLOSING` sets `_state := CLOSING`
at line 136 and then raises `NameError` (bare `increment_synack` at line 138
when `closing_ack = 0`, bare `pack_and_pad` at line 140 otherwise): `s_syn`
is never incremented, `closing_ack` is never recorded, and no `ACK+FIN` is
ever built or sent -- for the first FIN and every retransmission alike. -/
theorem fin_processing_raises_before_recording (s : ServerState) (seq ack : Nat)
    (p : List Nat) (syn : Bool)
    (hSt : s.state = BTCPState.ESTABLISHED ∨ s.state = BTCPState.CLOSING) :
    BTCPServerSocket.segment_received_dispatch s seq ack syn false true p =
      { state := { s with state := BTCPState.CLOSING }, sent := [],
        raised := some PyError.nameError } := by
  have hne : ¬ (s.state = BTCPState.ACCEPTING ∨ s.state = BTCPState.SYN_RCVD) := by
    rcases hSt with h | h <;> simp [h]
  unfold BTCPServerSocket.segment_received_dispatch
  rw [if_neg (fun hx => hne hx.2), if_neg (by simp), if_pos ⟨rfl, hSt⟩]

/-- Witness for C5: the first FIN on the sample socket transitions to
`CLOSING` and raises; the sequence cursor stays 3 and no closing
acknowledgement is recorded, so a repeated FIN meets `closing_ack = 0` and
dies identically. -/
theorem fin_processing_raises_before_recording_witness :
    (served.state = BTCPState.ESTABLISHED ∨ served.state = BTCPState.CLOSING) ∧
    BTCPServerSocket.segment_received_dispatch served 5 0 false false true [] =
      { state := { served with state := BTCPState.CLOSING }, sent := [],
        raised := some PyError.nameError } ∧
    ({ served with state := BTCPState.CLOSING } : ServerState).sSyn = served.sSyn ∧
    ({ served with state := BTCPState.CLOSING } : ServerState).closingAck = 0 :=
  ⟨Or.inl rfl,
   fin_processing_raises_before_recording served 5 0 [] false (Or.inl rfl),
   rfl, rfl⟩

/-- C6: the datagram-layer resource is released exactly once over the
lifecycle.  The receive callback never performs a release and never clears
the reference (the teardown branch at lines 145-148 is unreachable: an
ACK-flagged segment raises at line 128 first, and line 147 would be an
extra-argument `TypeError` releasing nothing); `close` releases exactly when
the reference is still set, clears the reference, and repeated `close` is a
no-op -- on both sockets. -/
theorem lossy_layer_released_exactly_once (s : ServerState) (c : ClientState)
    (seq ack : Nat) (syn a f : Bool) (payload : List Nat) :
    (BTCPServerSocket.segment_received_dispatch s seq ack syn a f payload).state.releases = s.releases ∧
    (BTCPServerSocket.segment_received_dispatch s seq ack syn a f payload).state.lossyLayer = s.lossyLayer ∧
    (s.lossyLayer = true → (BTCPServerSocket.close s).releases = s.releases + 1) ∧
    (BTCPServerSocket.close s).lossyLayer = false ∧
    BTCPServerSocket.close (BTCPServerSocket.close s) = BTCPServerSocket.close s ∧
    (c.lossyLayer = true → (BTCPClientSocket.close c).releases = c.releases + 1) ∧
    BTCPClientSocket.close (BTCPClientSocket.close c) = BTCPClientSocket.close c := by
  refine ⟨?_, ?_, fun h => ?_, ?_, ?_, fun h => ?_, ?_⟩
  · unfold BTCPServerSocket.segment_received_dispatch
    split_ifs <;> rfl
  · unfold BTCPServerSocket.segment_received_dispatch
    split_ifs <;> rfl
  · unfold BTCPServerSocket.close
    rw [if_pos h]
  · unfold BTCPServerSocket.close
    split_ifs <;> rfl
  · unfold BTCPServerSocket.close
    split_ifs <;> simp_all
  · unfold BTCPClientSocket.close
    rw [if_pos h]
  · unfold BTCPClientSocket.close
    split_ifs <;> simp_all

/-- Witness for C6: on the `CLOSING` sample socket (reference still set) a
single `close` yields release count 1. -/
theorem lossy_layer_released_exactly_once_witness :
    closingServer.lossyLayer = true ∧
    (BTCPServerSocket.close closingServer).releases = 1 := by
  have h := (lossy_layer_released_exactly_once closingServer clientSample
    10 5 false true false []).2.2.1 rfl
  refine ⟨rfl, ?_⟩
  rw [h]
  rfl

/-- C7: the server never emits any acknowledgement segment to carry a window
at all.  Every branch of the receive callback raises or returns before
`send_segment` (lines 153 and 156 die on the bare `increment_synack` and on
`len()` of a `queue.Queue`), so the sent list is empty for every state and
header; and `send_SYNACK` is uncallable (bare-name call sites at lines 256
and 263, a zero-parameter definition referencing `self`), so no `SYN+ACK` is
ever produced either. -/
theorem server_emits_no_ack_segments (s : ServerState) (seq ack : Nat)
    (syn a f : Bool) (payload : List Nat) :
    (BTCPServerSocket.segment_received_dispatch s seq ack syn a f payload).sent = [] ∧
    BTCPServerSocket.send_SYNACK = Except.error PyError.nameError := by
  constructor
  · unfold BTCPServerSocket.segment_received_dispatch
    split_ifs <;> rfl
  · rfl

/-- C10: an odd-length segment makes the server callback raise (the
`struct.error` of `struct.iter_unpack(R'!H', ...)`) instead of silently
dropping the segment, and conversely any run of the callback that returns
normally (no exception escaping) was given an even-length segment -- the
silent-drop behaviour only exists for even lengths. -/
theorem odd_length_segment_raises (s : ServerState) (segment : List Nat) :
    (segment.length % 2 = 1 →
      BTCPServerSocket.lossy_layer_segment_received s segment =
        { state := s, sent := [], raised := some PyError.structError }) ∧
    ((BTCPServerSocket.lossy_layer_segment_received s segment).raised = none →
      segment.length % 2 = 0) := by
  constructor
  · intro hodd
    unfold BTCPServerSocket.lossy_layer_segment_received
    rw [if_pos (by omega)]
  · intro hok
    by_contra hodd
    unfold BTCPServerSocket.lossy_layer_segment_received at hok
    rw [if_pos (by omega)] at hok
    simp at hok

/-- Witness for C10 on the one-byte segment. -/
theorem odd_length_segment_raises_witness :
    ([0] : List Nat).length % 2 = 1 ∧
    BTCPServerSocket.lossy_layer_segment_received served [0] =
      { state := served, sent := [], raised := some PyError.structError } :=
  ⟨rfl, (odd_length_segment_raises served [0]).1 rfl⟩

/-- Counterexample to C4 as stated: the claim quantifies over every received
byte sequence, but on the one-byte segment `b'\xff'` -- whose folded word sum
in the Internet-checksum reading is `65280`, not `0xFFFF` -- the server
callback does not return silently with no state change: `struct.iter_unpack`
raises on a buffer of odd length. -/
theorem checksum_claim_fails_on_odd_length :
    specFold [255] = 65280 ∧
    BTCPServerSocket.lossy_layer_segment_received served [255] =
      { state := served, sent := [], raised := some PyError.structError } := by
  constructor
  · show BTCPServerSocket.foldCarry (specWords16 [255]).sum = 65280
    rw [show (specWords16 [255]).sum = 65280 from rfl, foldCarry_small 65280 (by omega)]
  · unfold BTCPServerSocket.lossy_layer_segment_received
    rw [if_pos (by decide)]

/-- C4 (amended): for every even-length received byte sequence, in every
connection state, a folded ones-complement word sum different from `0xFFFF`
makes the server callback return immediately with no change to the connection
state, cursors or queue, sending nothing; the client callback, by contrast,
raises `NameError` on every segment (`client_socket.py` does not import
`struct`), so only the server implements the silent drop. -/
theorem checksum_failure_dropped_silently (s : ServerState) (c : ClientState)
    (segment : List Nat) (heven : segment.length % 2 = 0)
    (hbad : BTCPServerSocket.foldCarry (BTCPServerSocket.words16 segment).sum ≠ 65535) :
    BTCPServerSocket.lossy_layer_segment_received s segment =
      { state := s, sent := [], raised := none } ∧
    BTCPClientSocket.lossy_layer_segment_received c segment =
      Except.error PyError.nameError := by
  constructor
  · unfold BTCPServerSocket.lossy_layer_segment_received
    rw [if_neg (by omega), if_pos hbad]
  · rfl

/-- Witness for C4 on the even-length all-zero segment, whose folded sum is
`0`. -/
theorem checksum_failure_dropped_silently_witness :
    ([0, 0] : List Nat).length % 2 = 0 ∧
    BTCPServerSocket.foldCarry (BTCPServerSocket.words16 [0, 0]).sum = 0 ∧
    BTCPServerSocket.lossy_layer_segment_received served [0, 0] =
      { state := served, sent := [], raised := none } ∧
    BTCPClientSocket.lossy_layer_segment_received clientSample [0, 0] =
      Except.error PyError.nameError := by
  have h0 : BTCPServerSocket.foldCarry (BTCPServerSocket.words16 [0, 0]).sum = 0 := by
    rw [show (BTCPServerSocket.words16 [0, 0]).sum = 0 from rfl, foldCarry_small 0 (by omega)]
  have h := checksum_failure_dropped_silently served clientSample [0, 0] rfl (by omega)
  exact ⟨rfl, h0, h.1, h.2⟩
